import Mathlib

/-!
# Verification of the S1 SIP call-traffic generator

Shallow embedding of the s1-callgen Go sources:

* `internal/sip/client.go` (`Client.MakeCall`, `Client.handleResponse`,
  `Client.buildINVITE`, `Client.buildBYE`, `NewClient`'s RTP port pool);
* the enhanced generator installed by the build script as
  `internal/generator/generator.go` (`Generator.makeCall`,
  `Generator.updateCPS`, `Generator.adjustParametersAutomatically`);
* `internal/config/config.go` (`LoadConfig` defaulting).

Go byte strings are modelled as `List Char` (all data here is ASCII), the
`strings` package functions used by the code are re-implemented structurally,
float64 quantities are idealised as rationals, and the statistics counters
(Go `int64`, far from overflow in any reachable run) as integers.  Random
draws (`rand.Intn`, `rand.Float64` comparisons) and transport outcomes are
environment parameters that theorems quantify over.
-/

namespace S1CallGen

/-- Go strings as lists of characters (ASCII byte strings). -/
abbrev Str := List Char

/-- `strings.HasPrefix(s, pre)`: does `s` start with `pre`? -/
def goHasPre : Str → Str → Bool
  | _, [] => true
  | [], _ :: _ => false
  | a :: as, c :: cs => a == c && goHasPre as cs

/-- `strings.TrimPrefix(s, pre)`: drop `pre` from the front of `s` if present,
else return `s` unchanged. -/
def goTrimPre (s pre : Str) : Str :=
  if goHasPre s pre then s.drop pre.length else s

/-- ASCII white-space as recognised by `strings.TrimSpace` on the data at hand. -/
def isSpaceChar (c : Char) : Bool :=
  c == ' ' || c == '\t' || c == '\n' || c == '\r'

/-- `strings.TrimSpace(s)`: strip white-space from both ends. -/
def goTrimSpace (s : Str) : Str :=
  ((s.dropWhile isSpaceChar).reverse.dropWhile isSpaceChar).reverse

/-- `strings.Index(s, pat)`: index of the first occurrence of `pat` in `s`
(`none` models Go's `-1`). -/
def goIndexOf (pat : Str) : Str → Option Nat
  | [] => if goHasPre [] pat then some 0 else none
  | c :: cs =>
    if goHasPre (c :: cs) pat then some 0
    else (goIndexOf pat cs).map (· + 1)

/-- `strings.Contains(s, pat)`. -/
def goContainsSub (s pat : Str) : Bool :=
  (goIndexOf pat s).isSome

/-- `strings.IndexAny(s, chars)`: index of the first character of `s` that
occurs in `chars` (`none` models Go's `-1`). -/
def goIndexAny (chars : Str) : Str → Option Nat
  | [] => none
  | c :: cs =>
    if chars.contains c then some 0
    else (goIndexAny chars cs).map (· + 1)

/-- Helper for `goSplit`: fuelled splitting on the first occurrence of `sep`. -/
def goSplitFuel (sep : Str) : Nat → Str → List Str
  | 0, s => [s]
  | n + 1, s =>
    match goIndexOf sep s with
    | none => [s]
    | some i => s.take i :: goSplitFuel sep n (s.drop (i + sep.length))

/-- `strings.Split(s, sep)` for a non-empty separator. -/
def goSplit (sep s : Str) : List Str :=
  goSplitFuel sep (s.length + 1) s

/-! ## Dialog records and the SIP client (`internal/sip/client.go`) -/

/-- `models.Call`, restricted to the fields the SIP client reads or writes
(`EndTime`, `Duration`, `Country`, `Carrier` are never consulted by the
dialog logic). `status` is the Go string field (`"INITIATING"`, `"TRYING"`,
`"RINGING"`, `"ANSWERED"`); note the struct has no last-status-code field. -/
structure CallRecord where
  sipCallID : Str
  localTag : Str
  remoteTag : Str
  status : Str
  ani : Str
  dnis : Str
deriving DecidableEq, Repr

/-- The `activeCalls map[string]*models.Call` index, as an association list;
insertion conses (newest entry shadows), matching Go map overwrite under
first-match lookup. -/
abbrev CallIndex := List (Str × CallRecord)

/-- Go map lookup `c.activeCalls[callID]`. -/
def lookupAssoc (m : CallIndex) (k : Str) : Option CallRecord :=
  match m with
  | [] => none
  | (k', v) :: rest => if k' = k then some v else lookupAssoc rest k

/-- In-place mutation of the record registered under `k`
(`call.Status = ...` through the map's pointer). -/
def updateAssoc (m : CallIndex) (k : Str) (f : CallRecord → CallRecord) : CallIndex :=
  match m with
  | [] => []
  | (k', v) :: rest =>
    if k' = k then (k', f v) :: rest else (k', v) :: updateAssoc rest k f

/-- Go map `delete(c.activeCalls, callID)`. -/
def removeAssoc (m : CallIndex) (k : Str) : CallIndex :=
  m.filter (fun kv => decide (kv.1 ≠ k))

/-- The Call-ID scan of `Client.handleResponse`: first line with prefix
`Call-ID:`, trimmed after dropping the prefix; `[]` is Go's zero-value
string when no header is found. -/
def extractCallID (lines : List Str) : Str :=
  match lines.find? (fun l => goHasPre l "Call-ID:".data) with
  | none => []
  | some line => goTrimSpace (goTrimPre line "Call-ID:".data)

/-- The remote-tag scan of the `"200"` branch of `Client.handleResponse`:
first line with prefix `To:` containing `tag=`; the tag runs from just after
the first `tag=` to the next `;` or `>` (or to end of line). When no such
line exists `call.RemoteTag` keeps its previous value `dflt`. -/
def extractRemoteTag (lines : List Str) (dflt : Str) : Str :=
  match lines.find? (fun l => goHasPre l "To:".data && goContainsSub l "tag=".data) with
  | none => dflt
  | some line =>
    let tagStart := (goIndexOf "tag=".data line).getD 0 + 4
    let after := line.drop tagStart
    match goIndexAny [';', '>'] after with
    | none => after
    | some tagEnd => after.take tagEnd

/-- `Client.handleResponse`: split the datagram on CRLF, require at least 3
space-separated tokens on the status line with first token `SIP/2.0`, look
up the Call-ID in the index, then update the owning call: `100` → TRYING,
`180` → RINGING, `200` → ANSWERED plus remote tag; every other status code
only logs and changes nothing. -/
def handleResponse (m : CallIndex) (response : Str) : CallIndex :=
  let lines := goSplit ['\r', '\n'] response
  if lines.length < 1 then m
  else
    let parts := goSplit [' '] (lines.headD [])
    if parts.length < 3 then m
    else if (parts.headD []) ≠ "SIP/2.0".data then m
    else
      let statusCode := (parts.get? 1).getD []
      let callID := extractCallID lines
      match lookupAssoc m callID with
      | none => m
      | some _ =>
        if statusCode = "100".data then
          updateAssoc m callID (fun c => { c with status := "TRYING".data })
        else if statusCode = "180".data then
          updateAssoc m callID (fun c => { c with status := "RINGING".data })
        else if statusCode = "200".data then
          updateAssoc m callID (fun c =>
            { c with status := "ANSWERED".data
                     remoteTag := extractRemoteTag lines c.remoteTag })
        else m

/-- Client address configuration (the `Client` fields used by the builders). -/
structure ClientCfg where
  localIP : Str
  localPort : Nat
  remoteIP : Str
  remotePort : Nat

/-- Decimal rendering of a number, as `fmt.Sprintf("%d", n)` for naturals. -/
def natStr (n : Nat) : Str := Nat.toDigits 10 n

/-- A SIP request as assembled by `buildINVITE` / `buildBYE`: one field per
`fmt.Sprintf` argument of the corresponding header position. -/
structure SIPRequest where
  method : Str
  requestURI : Str
  viaBranch : Str
  fromUser : Str
  fromTag : Str
  toUser : Str
  toTag : Option Str
  callID : Str
  cseq : Str
  contentLength : Nat
  body : Str
deriving DecidableEq, Repr

/-- The SDP offer built inside `Client.buildINVITE` (`t` is the Unix-seconds
timestamp used in both `o=` fields). -/
def buildSDP (cfg : ClientCfg) (rtpPort : Nat) (t : Nat) : Str :=
  "v=0\r\no=- ".data ++ natStr t ++ " ".data ++ natStr t ++ " IN IP4 ".data ++
  cfg.localIP ++
  "\r\ns=S1 Call Generator\r\nc=IN IP4 ".data ++ cfg.localIP ++
  "\r\nt=0 0\r\nm=audio ".data ++ natStr rtpPort ++
  " RTP/AVP 0 8 101\r\na=rtpmap:0 PCMU/8000\r\na=rtpmap:8 PCMA/8000\r\na=rtpmap:101 telephone-event/8000\r\na=fmtp:101 0-16\r\na=sendrecv\r\n".data

/-- `Client.buildINVITE`: From carries `call.LocalTag`, To carries no tag,
CSeq is `1 INVITE`, Content-Length is the SDP length. -/
def buildINVITE (cfg : ClientCfg) (c : CallRecord) (rtpPort : Nat) (branch : Str)
    (t : Nat) : SIPRequest :=
  let sdp := buildSDP cfg rtpPort t
  { method := "INVITE".data
    requestURI := "sip:".data ++ c.dnis ++ "@".data ++ cfg.remoteIP ++ ":".data ++
      natStr cfg.remotePort
    viaBranch := branch
    fromUser := c.ani
    fromTag := c.localTag
    toUser := c.dnis
    toTag := none
    callID := c.sipCallID
    cseq := "1 INVITE".data
    contentLength := sdp.length
    body := sdp }

/-- `Client.buildBYE`: From carries `call.LocalTag`, To carries
`call.RemoteTag`, same Call-ID, CSeq `2 BYE`, Content-Length 0. -/
def buildBYE (cfg : ClientCfg) (c : CallRecord) (branch : Str) : SIPRequest :=
  { method := "BYE".data
    requestURI := "sip:".data ++ c.dnis ++ "@".data ++ cfg.remoteIP ++ ":".data ++
      natStr cfg.remotePort
    viaBranch := branch
    fromUser := c.ani
    fromTag := c.localTag
    toUser := c.dnis
    toTag := some c.remoteTag
    callID := c.sipCallID
    cseq := "2 BYE".data
    contentLength := 0
    body := [] }

/-- Which requests a `MakeCall` execution hands to `sendMessage`. -/
inductive SipMsgKind where
  | invite
  | bye
deriving DecidableEq, Repr

/-- The SIP client's mutable state: the buffered RTP port channel (a FIFO)
and the Call-ID index. -/
structure ClientState where
  rtpPorts : List Nat
  activeCalls : CallIndex
deriving DecidableEq, Repr

/-- The port pool filled by `NewClient`: even ports 10000, 10002, …, 19998. -/
def newClientPorts : List Nat :=
  (List.range 5000).map (fun i => 10000 + 2 * i)

/-- `Client.MakeCall`, one dialog end to end. The port is received from the
channel (`none` = the receive would block on an empty pool); the deferred
send-back appends it at the channel's tail on *every* exit path. `sendOk`
is the outcome of the INVITE `conn.Write`; on a write error the method
returns the error before registering the call. Otherwise the call is
registered, the datagrams of `responses` are demultiplexed to it by the
receive loop during the sleep, BYE is sent, the call deregistered, and the
method returns nil. The returned `Bool` is `err == nil`; the returned
`CallRecord` is the (pointer-shared) call after the run. -/
def clientMakeCall (st : ClientState) (c : CallRecord) (sendOk : Bool)
    (responses : List Str) :
    Option (Bool × ClientState × CallRecord × List SipMsgKind) :=
  match st.rtpPorts with
  | [] => none
  | port :: rest =>
    if sendOk then
      let m1 : CallIndex := (c.sipCallID, c) :: st.activeCalls
      let m2 := responses.foldl handleResponse m1
      let final := (lookupAssoc m2 c.sipCallID).getD c
      let m3 := removeAssoc m2 c.sipCallID
      some (true, { rtpPorts := rest ++ [port], activeCalls := m3 }, final,
        [SipMsgKind.invite, SipMsgKind.bye])
    else
      some (false, { rtpPorts := rest ++ [port], activeCalls := st.activeCalls }, c,
        [SipMsgKind.invite])

/-! ## The generator (`internal/generator/generator.go`, the enhanced version
the build script installs; the stale pre-script `generator.go` kept next to it
lacks the autopilot/ramp logic and does not even compile — it references the
`net` package without importing it). -/

/-- The four statistics counters of `generator.Statistics` that the invariant
P1 speaks about (Go `int64`, modelled as unbounded integers: every counter
moves by ±1 per event, far below the 64-bit range in any run). -/
structure Stats where
  totalCalls : Int
  successfulCalls : Int
  failedCalls : Int
  activeCalls : Int
deriving DecidableEq, Repr

/-- The zero-initialised counters of a fresh `Generator`. -/
def initStats : Stats := { totalCalls := 0, successfulCalls := 0, failedCalls := 0, activeCalls := 0 }

/-- The birth-side updates of `Generator.makeCall`:
`atomic.AddInt64(&TotalCalls, 1)` and `atomic.AddInt64(&ActiveCalls, 1)`. -/
def statsBirth (s : Stats) : Stats :=
  { s with totalCalls := s.totalCalls + 1, activeCalls := s.activeCalls + 1 }

/-- The death-side updates of `Generator.makeCall`: exactly one of
`SuccessfulCalls`/`FailedCalls` is incremented (success iff the SIP client's
`MakeCall` returned nil), then `ActiveCalls` is decremented. -/
def statsDeath (s : Stats) (ok : Bool) : Stats :=
  if ok then
    { s with successfulCalls := s.successfulCalls + 1, activeCalls := s.activeCalls - 1 }
  else
    { s with failedCalls := s.failedCalls + 1, activeCalls := s.activeCalls - 1 }

/-- The environment of one `Generator.makeCall` execution: whether the
number-pair pool was empty at the read lock, the Bernoulli draw
`rand.Float64()*100 < ASR`, the `rand.Intn(5)` draw of the rejected-path
sleep, the INVITE write outcome, and the datagrams the receive loop delivers
to this call while it is registered. -/
structure CallEnv where
  poolEmpty : Bool
  shouldAnswer : Bool
  rejectRand : Fin 5
  sendOk : Bool
  responses : List Str

/-- The rejected-path sleep of `Generator.makeCall`:
`time.Sleep(time.Duration(3+rand.Intn(5)) * time.Second)`, in seconds. -/
def rejectSleepSecs (k : Fin 5) : Nat := 3 + k.val

/-- One `Generator.makeCall` execution. Empty pool: return before any
counter is touched. Otherwise birth-side counters, then either the SIP
client dialog (answered branch: success recorded iff `MakeCall` returned
nil) or the rejected branch (sleep 3–7 s, no SIP traffic, recorded failed),
then the death-side counters. `none` models an execution that never
completes because the port receive blocks (no quiescent snapshot ever
includes it). Result: updated stats, updated client state, the call record
after the run, and the requests handed to `sendMessage`. -/
def generatorMakeCall (env : CallEnv) (s : Stats) (st : ClientState) (c : CallRecord) :
    Option (Stats × ClientState × CallRecord × List SipMsgKind) :=
  if env.poolEmpty then some (s, st, c, [])
  else
    let s1 := statsBirth s
    if env.shouldAnswer then
      match clientMakeCall st c env.sendOk env.responses with
      | none => none
      | some (ok, st2, c2, sent) => some (statsDeath s1 ok, st2, c2, sent)
    else
      some (statsDeath s1 false, st, c, [])

/-- A whole run: fold completed `makeCall` executions over the generator
state. A step whose dialog would block forever is skipped (its counters are
permanently mid-flight, so no snapshot after it is quiescent). -/
def runGen (steps : List (CallEnv × CallRecord)) (s : Stats) (st : ClientState) :
    Stats × ClientState :=
  match steps with
  | [] => (s, st)
  | (env, c) :: rest =>
    match generatorMakeCall env s st c with
    | none => runGen rest s st
    | some (s2, st2, _, _) => runGen rest s2 st2

/-- The statistics invariant P1:
`TotalCalls = SuccessfulCalls + FailedCalls + ActiveCalls`. -/
def statsOK (s : Stats) : Prop :=
  s.totalCalls = s.successfulCalls + s.failedCalls + s.activeCalls

instance (s : Stats) : Decidable (statsOK s) := by
  unfold statsOK; infer_instance

/-! ## Autopilot (`Generator.adjustParametersAutomatically`) -/

/-- The state the autopilot reads and writes: the two counters it consults
under the statistics mutex and the mutable `targetCPS` (float64, idealised
as a rational). -/
structure AutoState where
  totalCalls : Int
  successfulCalls : Int
  targetCPS : ℚ
deriving DecidableEq, Repr

/-- `Generator.adjustParametersAutomatically`: below 100 attempts do
nothing; otherwise compute `currentASR = successful/total*100` and, when it
differs from the target by more than 5 points, move `targetCPS` by
`(targetASR − currentASR)/100 · maxCPSAdjustment` and clamp into
`[0.1, 10.0]` via `math.Max(0.1, math.Min(·, 10.0))`. -/
def adjustAuto (targetASR maxStep : ℚ) (st : AutoState) : AutoState :=
  if st.totalCalls < 100 then st
  else
    let currentASR : ℚ := (st.successfulCalls : ℚ) / (st.totalCalls : ℚ) * 100
    if 5 < |currentASR - targetASR| then
      let adjustment := (targetASR - currentASR) / 100 * maxStep
      { st with targetCPS := max (1 / 10) (min (st.targetCPS + adjustment) 10) }
    else st

/-! ## Ramp-up (`Generator.updateCPS`) -/

/-- The shaper state `updateCPS` touches: the ramping flag and the two CPS
values (float64, idealised as rationals). `rampUpTime` (Go int seconds) and
the elapsed time since `rampStartTime` are passed explicitly. -/
structure RampState where
  isRamping : Bool
  currentCPS : ℚ
  targetCPS : ℚ
deriving DecidableEq, Repr

/-- `Generator.updateCPS`: not ramping → no change; elapsed past the ramp
time → jump to `targetCPS` and stop ramping; otherwise the linear
interpolation `currentCPS = targetCPS · elapsed / rampUpTime`. -/
def updateCPS (rampUpTime : Nat) (elapsed : ℚ) (g : RampState) : RampState :=
  if !g.isRamping then g
  else if (rampUpTime : ℚ) ≤ elapsed then
    { g with currentCPS := g.targetCPS, isRamping := false }
  else
    { g with currentCPS := g.targetCPS * (elapsed / (rampUpTime : ℚ)) }

/-! ## Configuration loading (`internal/config/config.go`) -/

/-- The `call_params` block of `models.Config` (the only block
`LoadConfig`'s defaulting touches). Counts are Go `int`, rates float64
(idealised as rationals). -/
structure CallParams where
  acdMin : Int
  acdMax : Int
  asr : ℚ
  maxConcurrent : Int
  minConcurrent : Int
  callsPerSecond : ℚ
  rampUpTime : Int
  rampDownTime : Int
deriving DecidableEq, Repr

/-- The `call_params` object of the JSON file: each field present with a
value or absent. -/
structure CallParamsJSON where
  acdMin : Option Int
  acdMax : Option Int
  asr : Option ℚ
  maxConcurrent : Option Int
  minConcurrent : Option Int
  callsPerSecond : Option ℚ
  rampUpTime : Option Int
  rampDownTime : Option Int
deriving DecidableEq, Repr

/-- `encoding/json` decoding into the zero-initialised struct: an absent
field leaves the Go zero value, a present field stores its value — so an
explicit `0` and a missing field decode identically. -/
def decodeCallParams (j : CallParamsJSON) : CallParams :=
  { acdMin := j.acdMin.getD 0
    acdMax := j.acdMax.getD 0
    asr := j.asr.getD 0
    maxConcurrent := j.maxConcurrent.getD 0
    minConcurrent := j.minConcurrent.getD 0
    callsPerSecond := j.callsPerSecond.getD 0
    rampUpTime := j.rampUpTime.getD 0
    rampDownTime := j.rampDownTime.getD 0 }

/-- The default-filling block of `LoadConfig` (lines 24–38): each of the
five listed fields is replaced by its default when it equals zero; no other
field is touched. -/
def applyDefaults (c : CallParams) : CallParams :=
  { c with
    acdMin := if c.acdMin = 0 then 30 else c.acdMin
    acdMax := if c.acdMax = 0 then 180 else c.acdMax
    asr := if c.asr = 0 then 70 else c.asr
    maxConcurrent := if c.maxConcurrent = 0 then 100 else c.maxConcurrent
    callsPerSecond := if c.callsPerSecond = 0 then 1 else c.callsPerSecond }

/-- `config.LoadConfig` after a successful open and decode. -/
def loadConfig (j : CallParamsJSON) : CallParams :=
  applyDefaults (decodeCallParams j)

/-! ## Helper lemmas -/

lemma statsOK_birth_death (s : Stats) (ok : Bool) (h : statsOK s) :
    statsOK (statsDeath (statsBirth s) ok) := by
  cases ok <;> simp [statsOK, statsBirth, statsDeath] at h ⊢ <;> omega

lemma generatorMakeCall_statsOK {env : CallEnv} {s : Stats} {st : ClientState}
    {c : CallRecord} {out : Stats × ClientState × CallRecord × List SipMsgKind}
    (h : generatorMakeCall env s st c = some out) (hs : statsOK s) : statsOK out.1 := by
  unfold generatorMakeCall at h
  split_ifs at h with hpool hans
  · injection h with h; subst h; exact hs
  · rcases hcm : clientMakeCall st c env.sendOk env.responses with _ | ⟨ok, st2, c2, sent⟩ <;>
      rw [hcm] at h
    · exact absurd h (by simp)
    · injection h with h; subst h
      exact statsOK_birth_death s ok hs
  · injection h with h; subst h
    exact statsOK_birth_death s false hs

lemma runGen_statsOK (steps : List (CallEnv × CallRecord)) :
    ∀ (s : Stats) (st : ClientState), statsOK s → statsOK (runGen steps s st).1 := by
  induction steps with
  | nil => intro s st hs; exact hs
  | cons hd tl ih =>
    intro s st hs
    rcases hd with ⟨env, c⟩
    rcases hgen : generatorMakeCall env s st c with _ | ⟨s2, st2, c2, sent⟩
    · simpa [runGen, hgen] using ih s st hs
    · simpa [runGen, hgen] using ih s2 st2 (generatorMakeCall_statsOK hgen hs)

lemma clientMakeCall_ports {st : ClientState} {c : CallRecord} {sendOk : Bool}
    {rs : List Str} {out : Bool × ClientState × CallRecord × List SipMsgKind}
    (h : clientMakeCall st c sendOk rs = some out) :
    out.2.1.rtpPorts.length = st.rtpPorts.length ∧
    List.Perm out.2.1.rtpPorts st.rtpPorts := by
  unfold clientMakeCall at h
  rcases hp : st.rtpPorts with _ | ⟨p, rest⟩ <;> rw [hp] at h
  · exact absurd h (by simp)
  · split_ifs at h <;>
      (injection h with h; subst h;
       exact ⟨by simp [hp], by simp [hp, List.perm_append_singleton]⟩)

/-- One step of a sequence of `Client.MakeCall` executions (a blocked
execution leaves the state untouched forever). -/
def clientStep (acc : ClientState) (x : CallRecord × Bool × List Str) : ClientState :=
  match clientMakeCall acc x.1 x.2.1 x.2.2 with
  | none => acc
  | some (_, st2, _, _) => st2

/-- A sequence of `Client.MakeCall` executions on one client. -/
def foldClientCalls (st : ClientState) (calls : List (CallRecord × Bool × List Str)) :
    ClientState :=
  calls.foldl clientStep st

lemma clientStep_ports (acc : ClientState) (x : CallRecord × Bool × List Str) :
    (clientStep acc x).rtpPorts.length = acc.rtpPorts.length := by
  unfold clientStep
  rcases hout : clientMakeCall acc x.1 x.2.1 x.2.2 with _ | ⟨ok, st2, c2, sent⟩
  · rfl
  · simpa using (clientMakeCall_ports hout).1

lemma goSplitFuel_ne_nil (sep : Str) (n : Nat) (s : Str) : goSplitFuel sep n s ≠ [] := by
  cases n with
  | zero => simp [goSplitFuel]
  | succ n => unfold goSplitFuel; rcases goIndexOf sep s with _ | i <;> simp

lemma goSplit_ne_nil (sep s : Str) : goSplit sep s ≠ [] :=
  goSplitFuel_ne_nil sep (s.length + 1) s

/-- Once the guards of `handleResponse` pass (≥ 3 tokens, first token
`SIP/2.0`, Call-ID registered), the result is the status-code dispatch on
the second token. -/
lemma handleResponse_parsed (m : CallIndex) (resp : Str) (lines parts : List Str)
    (cid : Str) (c : CallRecord)
    (hl : goSplit ['\r', '\n'] resp = lines)
    (hp : goSplit [' '] (lines.headD []) = parts)
    (h3 : 3 ≤ parts.length)
    (h0 : parts.headD [] = "SIP/2.0".data)
    (hcid : extractCallID lines = cid)
    (hc : lookupAssoc m cid = some c) :
    handleResponse m resp =
      (if (parts.get? 1).getD [] = "100".data then
        updateAssoc m cid (fun c => { c with status := "TRYING".data })
      else if (parts.get? 1).getD [] = "180".data then
        updateAssoc m cid (fun c => { c with status := "RINGING".data })
      else if (parts.get? 1).getD [] = "200".data then
        updateAssoc m cid (fun c =>
          { c with status := "ANSWERED".data
                   remoteTag := extractRemoteTag lines c.remoteTag })
      else m) := by
  have hne : lines ≠ [] := hl ▸ goSplit_ne_nil ['\r', '\n'] resp
  have h1 : ¬ (lines.length < 1) := by
    cases lines with
    | nil => exact absurd rfl hne
    | cons a l => simp
  simp only [handleResponse]
  rw [hl, hp, hcid, if_neg h1, if_neg (by omega : ¬ parts.length < 3),
    if_neg (fun hcontra => hcontra h0), hc]

lemma goIndexAny_eq_none {chars : Str} :
    ∀ {s : Str}, (∀ c ∈ s, chars.contains c = false) → goIndexAny chars s = none := by
  intro s
  induction s with
  | nil => intro _; rfl
  | cons a as ih =>
    intro h
    have ha : a ∉ chars := by simpa using h a (List.mem_cons_self a as)
    simp [goIndexAny, ha, ih (fun c hc => h c (List.mem_cons_of_mem a hc))]

lemma lookupAssoc_updateAssoc (m : CallIndex) (k : Str) (f : CallRecord → CallRecord) :
    lookupAssoc (updateAssoc m k f) k = (lookupAssoc m k).map f := by
  induction m with
  | nil => rfl
  | cons kv rest ih =>
    rcases kv with ⟨k', v⟩
    by_cases hk : k' = k
    · simp [updateAssoc, lookupAssoc, hk]
    · simp [updateAssoc, lookupAssoc, hk, ih]

/-- When the first matching To line is `p ++ "tag=" ++ t`, with the first
`tag=` occurrence being the one after `p` and `t` free of `;`/`>`, the
handler's remote-tag extraction yields exactly `t`. -/
lemma extractRemoteTag_of_to_line (lines : List Str) (p t dflt : Str)
    (hfind : lines.find? (fun l => goHasPre l "To:".data && goContainsSub l "tag=".data) =
      some (p ++ "tag=".data ++ t))
    (hidx : goIndexOf "tag=".data (p ++ "tag=".data ++ t) = some p.length)
    (hclean : ∀ ch ∈ t, ch ≠ ';' ∧ ch ≠ '>') :
    extractRemoteTag lines dflt = t := by
  unfold extractRemoteTag
  rw [hfind]
  simp only [hidx, Option.getD_some]
  have h4 : p.length + 4 = (p ++ "tag=".data).length := by
    simp [List.length_append]
  have hdrop : (p ++ "tag=".data ++ t).drop (p.length + 4) = t := by
    rw [h4]
    exact List.drop_left (p ++ "tag=".data) t
  rw [hdrop]
  have hnone : goIndexAny [';', '>'] t = none := by
    apply goIndexAny_eq_none
    intro c hc
    obtain ⟨h1, h2⟩ := hclean c hc
    simp [List.contains, h1, h2]
  rw [hnone]

/-! ## Claim theorems -/

/-- The record registered in the C3 index. -/
def rec3 : CallRecord :=
  ⟨"abc".data, "lt".data, [], "INITIATING".data, "111".data, "222".data⟩

/-- The active-call index of the C3 counterexample and witness. -/
def c3idx : CallIndex := [("abc".data, rec3)]

/-- C3 counterexample: a 486 response demultiplexed to a registered
Call-ID leaves the index — and the call's status — completely unchanged
(the claim demands status FAILED with the code recorded; `models.Call` has
no last-status-code field at all, and the default switch branch only
logs). -/
theorem C3_counterexample :
    handleResponse c3idx "SIP/2.0 486 Busy Here\r\nCall-ID: abc\r\n\r\n".data = c3idx ∧
    (lookupAssoc (handleResponse c3idx "SIP/2.0 486 Busy Here\r\nCall-ID: abc\r\n\r\n".data)
        "abc".data).map CallRecord.status = some "INITIATING".data := by
  constructor <;> decide

/-- C3 amended: for a well-formed response demultiplexed to a registered
Call-ID, `100` sets TRYING, `180` sets RINGING, and a literal `200` sets
ANSWERED and records the remote tag; every other status code — including
all 3xx/4xx/5xx/6xx — leaves the call record unchanged (no FAILED status,
no recorded status code). -/
theorem C3_response_dispatch :
    ∀ (m : CallIndex) (resp : Str) (lines parts : List Str) (cid : Str) (c : CallRecord),
      goSplit ['\r', '\n'] resp = lines →
      goSplit [' '] (lines.headD []) = parts →
      3 ≤ parts.length →
      parts.headD [] = "SIP/2.0".data →
      extractCallID lines = cid →
      lookupAssoc m cid = some c →
      (((parts.get? 1).getD [] = "100".data →
          handleResponse m resp =
            updateAssoc m cid (fun c => { c with status := "TRYING".data })) ∧
       ((parts.get? 1).getD [] = "180".data →
          handleResponse m resp =
            updateAssoc m cid (fun c => { c with status := "RINGING".data })) ∧
       ((parts.get? 1).getD [] = "200".data →
          handleResponse m resp =
            updateAssoc m cid (fun c =>
              { c with status := "ANSWERED".data
                       remoteTag := extractRemoteTag lines c.remoteTag })) ∧
       ((parts.get? 1).getD [] ≠ "100".data →
        (parts.get? 1).getD [] ≠ "180".data →
        (parts.get? 1).getD [] ≠ "200".data →
          handleResponse m resp = m)) := by
  intro m resp lines parts cid c hl hp h3 h0 hcid hc
  have hpr := handleResponse_parsed m resp lines parts cid c hl hp h3 h0 hcid hc
  refine ⟨?_, ?_, ?_, ?_⟩
  · intro h; rw [hpr, if_pos h]
  · intro h; rw [hpr, h]
    rw [if_neg (by decide), if_pos rfl]
  · intro h; rw [hpr, h]
    rw [if_neg (by decide), if_neg (by decide), if_pos rfl]
  · intro hn1 hn2 hn3
    rw [hpr, if_neg hn1, if_neg hn2, if_neg hn3]

/-- Witness for C3 amended: a 100 response to the registered call sets its
status to TRYING. -/
theorem C3_response_dispatch_witness :
    handleResponse c3idx "SIP/2.0 100 Trying\r\nCall-ID: abc\r\n\r\n".data =
      updateAssoc c3idx "abc".data (fun c => { c with status := "TRYING".data }) :=
  (C3_response_dispatch c3idx "SIP/2.0 100 Trying\r\nCall-ID: abc\r\n\r\n".data
      (goSplit ['\r', '\n'] "SIP/2.0 100 Trying\r\nCall-ID: abc\r\n\r\n".data)
      (goSplit [' ']
        ((goSplit ['\r', '\n'] "SIP/2.0 100 Trying\r\nCall-ID: abc\r\n\r\n".data).headD []))
      "abc".data rec3 rfl rfl (by decide) (by decide) (by decide) (by decide)).1
    (by decide)

/-- C1: at every quiescent snapshot (after any number of completed
`Generator.makeCall` executions) the counters satisfy
`TotalCalls = SuccessfulCalls + FailedCalls + ActiveCalls`; each completed
`makeCall` preserves the invariant because its birth side adds 1 to
`TotalCalls` and `ActiveCalls` and its death side moves exactly one unit
from `ActiveCalls` to `SuccessfulCalls` or `FailedCalls`. -/
theorem C1_stats_invariant :
    (∀ (env : CallEnv) (s : Stats) (st : ClientState) (c : CallRecord)
        (out : Stats × ClientState × CallRecord × List SipMsgKind),
        generatorMakeCall env s st c = some out → statsOK s → statsOK out.1) ∧
    (∀ (steps : List (CallEnv × CallRecord)) (st : ClientState),
        statsOK (runGen steps initStats st).1) :=
  ⟨fun _ _ _ _ _ h hs => generatorMakeCall_statsOK h hs,
   fun steps st => runGen_statsOK steps initStats st (by decide)⟩

/-- Witness for C1: a concrete completed answered call starting from the
zero counters satisfies the invariant. -/
theorem C1_stats_invariant_witness : statsOK (⟨1, 1, 0, 0⟩ : Stats) :=
  C1_stats_invariant.1
    { poolEmpty := false, shouldAnswer := true, rejectRand := 0, sendOk := true,
      responses := [] }
    initStats ⟨[10000], []⟩
    ⟨"c1".data, "t1".data, [], "INITIATING".data, "111".data, "222".data⟩
    (⟨1, 1, 0, 0⟩, ⟨[10000], []⟩,
      ⟨"c1".data, "t1".data, [], "INITIATING".data, "111".data, "222".data⟩,
      [SipMsgKind.invite, SipMsgKind.bye])
    (by decide) (by decide)

/-- C5: every `Client.MakeCall` execution that acquires an RTP port returns
it to the pool exactly once on every exit path (the deferred send-back runs
on the early INVITE-send-error return too), so the pool's size — and its
multiset of ports — is invariant across any sequence of calls. -/
theorem C5_port_release :
    (∀ (st : ClientState) (c : CallRecord) (sendOk : Bool) (rs : List Str),
        st.rtpPorts ≠ [] →
        ∃ ok st2 c2 sent,
          clientMakeCall st c sendOk rs = some (ok, st2, c2, sent) ∧
          st2.rtpPorts.length = st.rtpPorts.length ∧
          List.Perm st2.rtpPorts st.rtpPorts) ∧
    (∀ (calls : List (CallRecord × Bool × List Str)) (st : ClientState),
        (foldClientCalls st calls).rtpPorts.length = st.rtpPorts.length) := by
  constructor
  · intro st c sendOk rs hne
    rcases hout : clientMakeCall st c sendOk rs with _ | ⟨ok, st2, c2, sent⟩
    · exfalso
      unfold clientMakeCall at hout
      rcases hp : st.rtpPorts with _ | ⟨p, rest⟩
      · exact hne hp
      · rw [hp] at hout; split_ifs at hout
    · obtain ⟨hlen, hperm⟩ := clientMakeCall_ports hout
      refine ⟨ok, st2, c2, sent, ?_, ?_, ?_⟩
      · rfl
      · exact hlen
      · exact hperm
  · intro calls
    induction calls with
    | nil => intro st; rfl
    | cons x tl ih =>
      intro st
      calc (foldClientCalls (clientStep st x) tl).rtpPorts.length
          = (clientStep st x).rtpPorts.length := ih (clientStep st x)
        _ = st.rtpPorts.length := clientStep_ports st x

/-- Witness for C5: the early-return path of a send error on a two-port
pool returns the acquired port. -/
theorem C5_port_release_witness :
    ∃ ok st2 c2 sent,
      clientMakeCall ⟨[10000, 10002], []⟩
          ⟨"c5".data, "t5".data, [], "INITIATING".data, "111".data, "222".data⟩
          false [] =
        some (ok, st2, c2, sent) ∧
      st2.rtpPorts.length = (ClientState.mk [10000, 10002] []).rtpPorts.length ∧
      List.Perm st2.rtpPorts (ClientState.mk [10000, 10002] []).rtpPorts :=
  C5_port_release.1 ⟨[10000, 10002], []⟩
    ⟨"c5".data, "t5".data, [], "INITIATING".data, "111".data, "222".data⟩
    false [] (by decide)

/-- The environment of the C6 witness call (rejected path). -/
def env6 : CallEnv :=
  { poolEmpty := false, shouldAnswer := false, rejectRand := 2, sendOk := true,
    responses := [] }

/-- The call record of the C6 witness call. -/
def c6rec : CallRecord :=
  ⟨"c6".data, "t6".data, [], "INITIATING".data, "111".data, "222".data⟩

/-- C6: a call whose Bernoulli draw said "not answered" hands nothing to the
SIP client (no INVITE), sleeps `3 + rand.Intn(5)` seconds — a value in
`[3, 8)` — and terminates with `FailedCalls` incremented and `ActiveCalls`
decremented back to its pre-birth value. -/
theorem C6_rejected_path :
    ∀ (env : CallEnv) (s : Stats) (st : ClientState) (c : CallRecord),
      env.poolEmpty = false → env.shouldAnswer = false →
      (3 ≤ rejectSleepSecs env.rejectRand ∧ rejectSleepSecs env.rejectRand < 8) ∧
      ∃ s2, generatorMakeCall env s st c = some (s2, st, c, []) ∧
        s2.totalCalls = s.totalCalls + 1 ∧
        s2.successfulCalls = s.successfulCalls ∧
        s2.failedCalls = s.failedCalls + 1 ∧
        s2.activeCalls = (statsBirth s).activeCalls - 1 ∧
        s2.activeCalls = s.activeCalls := by
  intro env s st c hpool hans
  refine ⟨⟨by simp [rejectSleepSecs], ?_⟩, ?_⟩
  · have := env.rejectRand.isLt
    simp only [rejectSleepSecs]
    omega
  · refine ⟨statsDeath (statsBirth s) false, ?_, ?_, ?_, ?_, ?_, ?_⟩ <;>
      simp [generatorMakeCall, hpool, hans, statsBirth, statsDeath]

/-- C7: while ramping, an `updateCPS` tick at elapsed time `t < rampUpTime`
sets `currentCPS = targetCPS · t / rampUpTime` and stays ramping; at
`t ≥ rampUpTime` it sets `currentCPS = targetCPS` and ends the ramp; in
min-form, `currentCPS = targetCPS · min(1, t / rampUpTime)` whenever
`rampUpTime > 0`. -/
theorem C7_ramp_linear :
    ∀ (T : Nat) (elapsed : ℚ) (g : RampState),
      g.isRamping = true → 0 ≤ elapsed →
      (elapsed < (T : ℚ) →
        (updateCPS T elapsed g).currentCPS = g.targetCPS * (elapsed / (T : ℚ)) ∧
        (updateCPS T elapsed g).isRamping = true ∧
        (updateCPS T elapsed g).currentCPS = g.targetCPS * min 1 (elapsed / (T : ℚ))) ∧
      ((T : ℚ) ≤ elapsed →
        (updateCPS T elapsed g).currentCPS = g.targetCPS ∧
        (updateCPS T elapsed g).isRamping = false) ∧
      (0 < T →
        (updateCPS T elapsed g).currentCPS = g.targetCPS * min 1 (elapsed / (T : ℚ))) := by
  intro T elapsed g hr he
  refine ⟨?_, ?_, ?_⟩
  · intro hlt
    have hT : (0 : ℚ) < (T : ℚ) := lt_of_le_of_lt he hlt
    have hdiv : elapsed / (T : ℚ) < 1 := (div_lt_one hT).mpr hlt
    have hnotle : ¬ ((T : ℚ) ≤ elapsed) := not_le.mpr hlt
    refine ⟨by simp [updateCPS, hr, hnotle], by simp [updateCPS, hr, hnotle], ?_⟩
    rw [min_eq_right (le_of_lt hdiv)]
    simp [updateCPS, hr, hnotle]
  · intro hge
    exact ⟨by simp [updateCPS, hr, hge], by simp [updateCPS, hr, hge]⟩
  · intro hTpos
    rcases le_or_lt (T : ℚ) elapsed with hge | hlt
    · have hTq : (0 : ℚ) < (T : ℚ) := by exact_mod_cast hTpos
      have h1 : (1 : ℚ) ≤ elapsed / (T : ℚ) := (one_le_div hTq).mpr hge
      rw [min_eq_left h1]
      simp [updateCPS, hr, hge]
    · have hT : (0 : ℚ) < (T : ℚ) := lt_of_le_of_lt he hlt
      have hdiv : elapsed / (T : ℚ) < 1 := (div_lt_one hT).mpr hlt
      have hnotle : ¬ ((T : ℚ) ≤ elapsed) := not_le.mpr hlt
      rw [min_eq_right (le_of_lt hdiv)]
      simp [updateCPS, hr, hnotle]

/-- Witness for C7: two seconds into a ten-second ramp toward 5 CPS the
tick sets 1 CPS and keeps ramping. -/
theorem C7_ramp_linear_witness :
    (updateCPS 10 2 ⟨true, 0, 5⟩).currentCPS = (5 : ℚ) * (2 / (10 : ℚ)) ∧
    (updateCPS 10 2 ⟨true, 0, 5⟩).isRamping = true :=
  ⟨((C7_ramp_linear 10 2 ⟨true, 0, 5⟩ rfl (by norm_num)).1 (by norm_num)).1,
   ((C7_ramp_linear 10 2 ⟨true, 0, 5⟩ rfl (by norm_num)).1 (by norm_num)).2.1⟩

/-- C10: LoadConfig replaces a decoded zero in each of the five defaulted
fields by its default (30, 180, 70, 100, 1.0) whether the field was absent
or explicitly 0, keeps any non-zero decoded value, and passes every other
field through exactly as decoded. -/
theorem C10_config_defaults :
    ∀ (j : CallParamsJSON),
      ((j.acdMin = some 0 ∨ j.acdMin = none) → (loadConfig j).acdMin = 30) ∧
      ((j.acdMax = some 0 ∨ j.acdMax = none) → (loadConfig j).acdMax = 180) ∧
      ((j.asr = some 0 ∨ j.asr = none) → (loadConfig j).asr = 70) ∧
      ((j.maxConcurrent = some 0 ∨ j.maxConcurrent = none) →
        (loadConfig j).maxConcurrent = 100) ∧
      ((j.callsPerSecond = some 0 ∨ j.callsPerSecond = none) →
        (loadConfig j).callsPerSecond = 1) ∧
      (∀ v : Int, j.acdMin = some v → v ≠ 0 → (loadConfig j).acdMin = v) ∧
      (∀ v : Int, j.acdMax = some v → v ≠ 0 → (loadConfig j).acdMax = v) ∧
      (∀ v : ℚ, j.asr = some v → v ≠ 0 → (loadConfig j).asr = v) ∧
      (∀ v : Int, j.maxConcurrent = some v → v ≠ 0 → (loadConfig j).maxConcurrent = v) ∧
      (∀ v : ℚ, j.callsPerSecond = some v → v ≠ 0 → (loadConfig j).callsPerSecond = v) ∧
      (loadConfig j).minConcurrent = (decodeCallParams j).minConcurrent ∧
      (loadConfig j).rampUpTime = (decodeCallParams j).rampUpTime ∧
      (loadConfig j).rampDownTime = (decodeCallParams j).rampDownTime := by
  intro j
  refine ⟨?_, ?_, ?_, ?_, ?_, ?_, ?_, ?_, ?_, ?_, ?_, ?_, ?_⟩
  · rintro (h | h) <;> simp [loadConfig, applyDefaults, decodeCallParams, h]
  · rintro (h | h) <;> simp [loadConfig, applyDefaults, decodeCallParams, h]
  · rintro (h | h) <;> simp [loadConfig, applyDefaults, decodeCallParams, h]
  · rintro (h | h) <;> simp [loadConfig, applyDefaults, decodeCallParams, h]
  · rintro (h | h) <;> simp [loadConfig, applyDefaults, decodeCallParams, h]
  · intro v h hv; simp [loadConfig, applyDefaults, decodeCallParams, h, hv]
  · intro v h hv; simp [loadConfig, applyDefaults, decodeCallParams, h, hv]
  · intro v h hv; simp [loadConfig, applyDefaults, decodeCallParams, h, hv]
  · intro v h hv; simp [loadConfig, applyDefaults, decodeCallParams, h, hv]
  · intro v h hv; simp [loadConfig, applyDefaults, decodeCallParams, h, hv]
  · simp [loadConfig, applyDefaults]
  · simp [loadConfig, applyDefaults]
  · simp [loadConfig, applyDefaults]

/-- The JSON `call_params` object of the C10 witness: the five defaulted
fields explicitly 0, the others present non-zero. -/
def j10 : CallParamsJSON :=
  { acdMin := some 0, acdMax := some 0, asr := some 0, maxConcurrent := some 0,
    minConcurrent := some 7, callsPerSecond := some 0, rampUpTime := some 300,
    rampDownTime := some 200 }

/-- Witness for C10: explicit zeros receive the documented defaults and
`min_concurrent` passes through. -/
theorem C10_config_defaults_witness :
    (loadConfig j10).acdMin = 30 ∧ (loadConfig j10).acdMax = 180 ∧
    (loadConfig j10).asr = 70 ∧ (loadConfig j10).maxConcurrent = 100 ∧
    (loadConfig j10).callsPerSecond = 1 ∧
    (loadConfig j10).minConcurrent = (decodeCallParams j10).minConcurrent :=
  ⟨(C10_config_defaults j10).1 (Or.inl rfl),
   (C10_config_defaults j10).2.1 (Or.inl rfl),
   (C10_config_defaults j10).2.2.1 (Or.inl rfl),
   (C10_config_defaults j10).2.2.2.1 (Or.inl rfl),
   (C10_config_defaults j10).2.2.2.2.1 (Or.inl rfl),
   (C10_config_defaults j10).2.2.2.2.2.2.2.2.2.2.1⟩

/-- The environment of the C2 call: answered-flag true, INVITE write
succeeds, and the only response ever delivered is a 180 — no 2xx. -/
def env2 : CallEnv :=
  { poolEmpty := false, shouldAnswer := true, rejectRand := 0, sendOk := true,
    responses := ["SIP/2.0 180 Ringing\r\nCall-ID: cid2\r\n\r\n".data] }

/-- The call record of the C2 call. -/
def c2call : CallRecord :=
  ⟨"cid2".data, "lt2".data, [], "INITIATING".data, "111".data, "222".data⟩

/-- C2 counterexample: an answered-flag call whose INVITE is sent
successfully but never receives a 2xx (its record is still not ANSWERED
when BYE is sent) is recorded with `SuccessfulCalls = 1`, `FailedCalls = 0`
— not as FAILED as the claim demands. -/
theorem C2_counterexample :
    ∃ s2 st2 c2 sent,
      generatorMakeCall env2 initStats ⟨[10000], []⟩ c2call = some (s2, st2, c2, sent) ∧
      c2.status ≠ "ANSWERED".data ∧
      s2.successfulCalls = 1 ∧ s2.failedCalls = 0 := by
  refine ⟨⟨1, 1, 0, 0⟩, ⟨[10000], []⟩, { c2call with status := "RINGING".data },
    [SipMsgKind.invite, SipMsgKind.bye], ?_, ?_, rfl, rfl⟩ <;> decide

/-- C2 amended: the recorded outcome of an answered-flag call depends only
on the INVITE send — `SuccessfulCalls` is incremented iff the write
succeeded and `FailedCalls` iff it failed, regardless of which responses
(if any) arrived; never observing a 2xx does not make the call FAILED. -/
theorem C2_outcome_send_only :
    ∀ (env : CallEnv) (s : Stats) (st : ClientState) (c : CallRecord)
      (out : Stats × ClientState × CallRecord × List SipMsgKind),
      env.poolEmpty = false → env.shouldAnswer = true →
      generatorMakeCall env s st c = some out →
      out.1.successfulCalls = s.successfulCalls + (if env.sendOk then 1 else 0) ∧
      out.1.failedCalls = s.failedCalls + (if env.sendOk then 0 else 1) := by
  intro env s st c out hpool hans h
  simp only [generatorMakeCall, hpool, hans, Bool.false_eq_true, if_false, if_true] at h
  unfold clientMakeCall at h
  rcases hp : st.rtpPorts with _ | ⟨p, rest⟩ <;> rw [hp] at h
  · exact absurd h (by simp)
  · cases hsend : env.sendOk <;> rw [hsend] at h <;>
      simp only [Bool.false_eq_true, if_false, if_true] at h <;>
      (injection h with h; subst h;
       simp [statsDeath, statsBirth])

/-- Witness for C2 amended at the concrete no-2xx call of the
counterexample environment. -/
theorem C2_outcome_send_only_witness :
    (⟨1, 1, 0, 0⟩ : Stats).successfulCalls =
      initStats.successfulCalls + (if env2.sendOk then 1 else 0) ∧
    (⟨1, 1, 0, 0⟩ : Stats).failedCalls =
      initStats.failedCalls + (if env2.sendOk then 0 else 1) :=
  C2_outcome_send_only env2 initStats ⟨[10000], []⟩ c2call
    (⟨1, 1, 0, 0⟩, ⟨[10000], []⟩, { c2call with status := "RINGING".data },
      [SipMsgKind.invite, SipMsgKind.bye])
    rfl rfl (by decide)

/-- C8: a datagram whose status line has fewer than 3 space-separated
tokens, or whose first token is not `SIP/2.0`, or whose Call-ID is not
registered in the active-call index, leaves the index (and every call
record in it) unchanged — `handleResponse` returns before any mutation, and
it touches no statistics counter on any path. -/
theorem C8_drop_unmatched :
    ∀ (m : CallIndex) (resp : Str),
      ((goSplit [' '] ((goSplit ['\r', '\n'] resp).headD [])).length < 3 ∨
       (goSplit [' '] ((goSplit ['\r', '\n'] resp).headD [])).headD [] ≠ "SIP/2.0".data ∨
       lookupAssoc m (extractCallID (goSplit ['\r', '\n'] resp)) = none) →
      handleResponse m resp = m := by
  intro m resp h
  simp only [handleResponse]
  split_ifs with h1 h2 h3 h4 h5 h6 <;>
    first
    | rfl
    | (rcases h with hx | hx | hx
       · exact absurd hx h2
       · exact absurd hx h3
       · rw [hx])

/-- The index of the C8 witness. -/
def m8 : CallIndex :=
  [("abc8".data, ⟨"abc8".data, "lt8".data, [], "INITIATING".data, "111".data, "222".data⟩)]

/-- Witness for C8: a datagram that is not a SIP status line is dropped. -/
theorem C8_drop_unmatched_witness :
    handleResponse m8 "HELLO\r\n\r\n".data = m8 :=
  C8_drop_unmatched m8 "HELLO\r\n\r\n".data (Or.inl (by decide))

/-- C9: when a registered call's 200 response carries To-header tag `t`,
the handler records `t` as the remote tag, and the BYE then built for the
call carries From tag equal to the INVITE's From tag (the call's local
tag), To tag `t`, the INVITE's Call-ID, CSeq `2 BYE`, and Content-Length
0. -/
theorem C9_bye_dialog_fields :
    ∀ (cfg : ClientCfg) (m : CallIndex) (c : CallRecord) (resp : Str)
      (lines parts : List Str) (p t : Str),
      goSplit ['\r', '\n'] resp = lines →
      goSplit [' '] (lines.headD []) = parts →
      3 ≤ parts.length →
      parts.headD [] = "SIP/2.0".data →
      (parts.get? 1).getD [] = "200".data →
      extractCallID lines = c.sipCallID →
      lookupAssoc m c.sipCallID = some c →
      lines.find? (fun l => goHasPre l "To:".data && goContainsSub l "tag=".data) =
        some (p ++ "tag=".data ++ t) →
      goIndexOf "tag=".data (p ++ "tag=".data ++ t) = some p.length →
      (∀ ch ∈ t, ch ≠ ';' ∧ ch ≠ '>') →
      ∀ (branchI branchB : Str) (rtpPort ts : Nat),
        ∃ c', lookupAssoc (handleResponse m resp) c.sipCallID = some c' ∧
          c'.status = "ANSWERED".data ∧
          c'.remoteTag = t ∧
          (buildBYE cfg c' branchB).fromTag = (buildINVITE cfg c rtpPort branchI ts).fromTag ∧
          (buildBYE cfg c' branchB).toTag = some t ∧
          (buildBYE cfg c' branchB).callID = (buildINVITE cfg c rtpPort branchI ts).callID ∧
          (buildBYE cfg c' branchB).cseq = "2 BYE".data ∧
          (buildBYE cfg c' branchB).contentLength = 0 := by
  intro cfg m c resp lines parts p t hl hp h3 h0 hcode hcid hc hfind hidx hclean
    branchI branchB rtpPort ts
  have hpr := handleResponse_parsed m resp lines parts c.sipCallID c hl hp h3 h0 hcid hc
  rw [hcode, if_neg (by decide), if_neg (by decide), if_pos rfl] at hpr
  have htag : extractRemoteTag lines c.remoteTag = t :=
    extractRemoteTag_of_to_line lines p t c.remoteTag hfind hidx hclean
  refine ⟨{ c with status := "ANSWERED".data
                   remoteTag := extractRemoteTag lines c.remoteTag },
    ?_, rfl, htag, rfl, ?_, rfl, rfl, rfl⟩
  · rw [hpr, lookupAssoc_updateAssoc, hc]
    rfl
  · simp [buildBYE, htag]

/-- The client address configuration of the C9 witness. -/
def cfg9 : ClientCfg := ⟨"10.0.0.1".data, 5070, "10.0.0.2".data, 5060⟩

/-- The registered call of the C9 witness. -/
def rec9 : CallRecord :=
  ⟨"abc9".data, "777".data, [], "INITIATING".data, "111".data, "222".data⟩

/-- The active-call index of the C9 witness. -/
def m9 : CallIndex := [("abc9".data, rec9)]

/-- The 200 response of the C9 witness, carrying To tag `99`. -/
def resp9 : Str := "SIP/2.0 200 OK\r\nCall-ID: abc9\r\nTo: <sip:222@10.0.0.2>;tag=99\r\n\r\n".data

/-- Witness for C9 at a concrete answered dialog. -/
theorem C9_bye_dialog_fields_witness :
    ∃ c', lookupAssoc (handleResponse m9 resp9) rec9.sipCallID = some c' ∧
      c'.status = "ANSWERED".data ∧
      c'.remoteTag = "99".data ∧
      (buildBYE cfg9 c' "b2".data).fromTag =
        (buildINVITE cfg9 rec9 10000 "b1".data 0).fromTag ∧
      (buildBYE cfg9 c' "b2".data).toTag = some "99".data ∧
      (buildBYE cfg9 c' "b2".data).callID =
        (buildINVITE cfg9 rec9 10000 "b1".data 0).callID ∧
      (buildBYE cfg9 c' "b2".data).cseq = "2 BYE".data ∧
      (buildBYE cfg9 c' "b2".data).contentLength = 0 :=
  C9_bye_dialog_fields cfg9 m9 rec9 resp9
    (goSplit ['\r', '\n'] resp9)
    (goSplit [' '] ((goSplit ['\r', '\n'] resp9).headD []))
    "To: <sip:222@10.0.0.2>;".data "99".data
    rfl rfl (by decide) (by decide) (by decide) (by decide) (by decide)
    (by decide) (by decide) (by decide)
    "b1".data "b2".data 10000 0

/-- C4 counterexample: with `target_cps = 100` (a legal configured value —
the spec's own concurrency-ceiling scenario configures cps = 100),
`target_asr = 0`, `max_cps_step = 1/2` and statistics 100/100, one
adjustment clamps `target_cps` to 10, a change of 90 ≫ max_cps_step, so
the claimed bound `|Δ target_cps| ≤ max_cps_step` fails. -/
theorem C4_counterexample :
    (adjustAuto 0 (1 / 2) ⟨100, 100, 100⟩).targetCPS = 10 ∧
    ¬ |(adjustAuto 0 (1 / 2) ⟨100, 100, 100⟩).targetCPS -
        (⟨100, 100, 100⟩ : AutoState).targetCPS| ≤ 1 / 2 := by
  constructor <;> norm_num [adjustAuto, abs]

/-- C4 amended: an adjustment step changes nothing below 100 attempts,
applies exactly `clamp(target_cps + (target_asr − current_asr)/100 ·
max_cps_step, 0.1, 10.0)` when the ASR gap exceeds 5 points and nothing
otherwise; and the step bound `|Δ target_cps| ≤ max_cps_step` holds
provided `max_cps_step ≥ 0`, `target_asr ∈ [0,100]`,
`0 ≤ successful ≤ total`, and the pre-adjustment `target_cps` already lies
in the clamp interval `[0.1, 10]`. -/
theorem C4_autopilot_adjust :
    ∀ (targetASR maxStep : ℚ) (st : AutoState),
      0 ≤ maxStep → 0 ≤ targetASR → targetASR ≤ 100 →
      0 ≤ st.successfulCalls → st.successfulCalls ≤ st.totalCalls →
      1 / 10 ≤ st.targetCPS → st.targetCPS ≤ 10 →
      (st.totalCalls < 100 → adjustAuto targetASR maxStep st = st) ∧
      (¬ st.totalCalls < 100 →
        (5 < |(st.successfulCalls : ℚ) / (st.totalCalls : ℚ) * 100 - targetASR| →
          (adjustAuto targetASR maxStep st).targetCPS =
            max (1 / 10)
              (min (st.targetCPS +
                (targetASR - (st.successfulCalls : ℚ) / (st.totalCalls : ℚ) * 100) /
                  100 * maxStep) 10)) ∧
        (¬ 5 < |(st.successfulCalls : ℚ) / (st.totalCalls : ℚ) * 100 - targetASR| →
          adjustAuto targetASR maxStep st = st)) ∧
      |(adjustAuto targetASR maxStep st).targetCPS - st.targetCPS| ≤ maxStep := by
  intro tASR mStep st hm h0t ht100 hs0 hst hlo hhi
  by_cases h100 : st.totalCalls < 100
  · refine ⟨fun _ => by simp [adjustAuto, h100], fun h => absurd h100 h, ?_⟩
    have heq : adjustAuto tASR mStep st = st := by simp [adjustAuto, h100]
    rw [heq, sub_self, abs_zero]
    exact hm
  · have htq : (100 : ℚ) ≤ (st.totalCalls : ℚ) := by exact_mod_cast not_lt.mp h100
    have htpos : (0 : ℚ) < (st.totalCalls : ℚ) := lt_of_lt_of_le (by norm_num) htq
    have hsq : (0 : ℚ) ≤ (st.successfulCalls : ℚ) := by exact_mod_cast hs0
    have hstq : (st.successfulCalls : ℚ) ≤ (st.totalCalls : ℚ) := by exact_mod_cast hst
    have hasr0 : 0 ≤ (st.successfulCalls : ℚ) / (st.totalCalls : ℚ) * 100 := by positivity
    have hasr100 : (st.successfulCalls : ℚ) / (st.totalCalls : ℚ) * 100 ≤ 100 := by
      have hd : (st.successfulCalls : ℚ) / (st.totalCalls : ℚ) ≤ 1 :=
        div_le_one_of_le₀ hstq (le_of_lt htpos)
      nlinarith
    refine ⟨fun h => absurd h h100, fun _ => ⟨?_, ?_⟩, ?_⟩
    · intro htr
      simp only [adjustAuto]
      rw [if_neg h100, if_pos htr]
    · intro htr
      simp only [adjustAuto]
      rw [if_neg h100, if_neg htr]
    · by_cases htr : 5 < |(st.successfulCalls : ℚ) / (st.totalCalls : ℚ) * 100 - tASR|
      · have heq : (adjustAuto tASR mStep st).targetCPS =
            max (1 / 10)
              (min (st.targetCPS +
                (tASR - (st.successfulCalls : ℚ) / (st.totalCalls : ℚ) * 100) /
                  100 * mStep) 10) := by
          simp only [adjustAuto]
          rw [if_neg h100, if_pos htr]
        rw [heq]
        have h1 : |tASR - (st.successfulCalls : ℚ) / (st.totalCalls : ℚ) * 100| ≤ 100 := by
          rw [abs_le]
          constructor <;> linarith
        have hdelta :
            |(tASR - (st.successfulCalls : ℚ) / (st.totalCalls : ℚ) * 100) / 100 * mStep| ≤
              mStep := by
          have habs :
              |(tASR - (st.successfulCalls : ℚ) / (st.totalCalls : ℚ) * 100) / 100 * mStep| =
                |tASR - (st.successfulCalls : ℚ) / (st.totalCalls : ℚ) * 100| / 100 * mStep := by
            rw [abs_mul, abs_div, abs_of_nonneg hm]
            norm_num
          rw [habs]
          have h2 := mul_le_mul_of_nonneg_right h1 hm
          linarith
        generalize hgen :
          (tASR - (st.successfulCalls : ℚ) / (st.totalCalls : ℚ) * 100) / 100 * mStep = δ
            at hdelta ⊢
        rcases le_or_lt (st.targetCPS + δ) (1 / 10) with hlow | hup
        · rw [min_eq_left (by linarith : st.targetCPS + δ ≤ 10),
            max_eq_left hlow, abs_le]
          constructor
          · have hd1 : -|δ| ≤ δ := neg_abs_le δ
            linarith
          · linarith
        · rcases le_or_lt 10 (st.targetCPS + δ) with hhigh | hmid
          · rw [min_eq_right hhigh,
              max_eq_right (by norm_num : (1 / 10 : ℚ) ≤ 10), abs_le]
            constructor
            · linarith
            · have hd2 : δ ≤ |δ| := le_abs_self δ
              linarith
          · rw [min_eq_left (le_of_lt hmid), max_eq_right (le_of_lt hup)]
            have hsub : st.targetCPS + δ - st.targetCPS = δ := by ring
            rw [hsub]
            exact hdelta
      · have heq : adjustAuto tASR mStep st = st := by
          simp only [adjustAuto]
          rw [if_neg h100, if_neg htr]
        rw [heq, sub_self, abs_zero]
        exact hm

/-- Witness for C4 amended: at 200 attempts, 100 answered (ASR 50), target
ASR 70 and max step 1/2, the adjustment moves `target_cps` by at most the
step. -/
theorem C4_autopilot_adjust_witness :
    |(adjustAuto 70 (1 / 2) ⟨200, 100, 2⟩).targetCPS -
      (⟨200, 100, 2⟩ : AutoState).targetCPS| ≤ 1 / 2 :=
  (C4_autopilot_adjust 70 (1 / 2) ⟨200, 100, 2⟩ (by norm_num) (by norm_num)
    (by norm_num) (by norm_num) (by norm_num) (by norm_num) (by norm_num)).2.2

/-- Witness for C6 at a concrete rejected call. -/
theorem C6_rejected_path_witness :
    (3 ≤ rejectSleepSecs env6.rejectRand ∧ rejectSleepSecs env6.rejectRand < 8) ∧
    ∃ s2, generatorMakeCall env6 initStats ⟨[], []⟩ c6rec = some (s2, ⟨[], []⟩, c6rec, []) ∧
      s2.totalCalls = initStats.totalCalls + 1 ∧
      s2.successfulCalls = initStats.successfulCalls ∧
      s2.failedCalls = initStats.failedCalls + 1 ∧
      s2.activeCalls = (statsBirth initStats).activeCalls - 1 ∧
      s2.activeCalls = initStats.activeCalls :=
  C6_rejected_path env6 initStats ⟨[], []⟩ c6rec rfl rfl

end S1CallGen
